import Mathlib

/-!
Verification of the invocation executor core of a Lambda-style Rust runtime
(`lambda/src/lib.rs`).  The data model, protocol codec and executor loop are
shallowly embedded: async is collapsed to sequential evaluation, the process
environment is a finite association list, the HTTP transport is a state
machine parameter, and the unbounded loop is run on fuel (fuel exhaustion
means "still running", since the source loop has no normal exit).
-/

deriving instance DecidableEq for Except

namespace Lambda

/-- The process environment: variable name to value.  `env::var` is lookup. -/
abbrev Env : Type := List (String × String)

/-- `std::env::var`: `Ok` when the variable is present, `Err` otherwise. -/
def Env.var (env : Env) (name : String) : Except String String :=
  match env.lookup name with
  | some v => .ok v
  | none => .error ("environment variable not found: " ++ name)

/-- The numeric value of a decimal digit character. -/
def digitVal (c : Char) : Option Nat :=
  if 48 ≤ c.toNat ∧ c.toNat ≤ 57 then some (c.toNat - 48) else none

/-- Accumulate a decimal number over a digit list. -/
def parseDigitsAux : List Char → Nat → Option Nat
  | [], acc => some acc
  | c :: cs, acc =>
      match digitVal c with
      | some d => parseDigitsAux cs (acc * 10 + d)
      | none => none

/-- Parse a nonempty all-digit string as a natural number. -/
def parseDigits : List Char → Option Nat
  | [] => none
  | cs => parseDigitsAux cs 0

/-- `str::parse::<i32>`: digits with optional sign, within the i32 range. -/
def parseI32 (s : String) : Except String Int :=
  let signed : Int × List Char :=
    match s.data with
    | '-' :: rest => (-1, rest)
    | '+' :: rest => (1, rest)
    | cs => (1, cs)
  match parseDigits signed.2 with
  | none => .error "invalid digit found in string"
  | some n =>
      let v : Int := signed.1 * n
      if -(2 ^ 31) ≤ v ∧ v < 2 ^ 31 then .ok v
      else .error "number too large to fit in target type"

/-- Decimal digits of `n`, most significant first, on fuel. -/
def natDigitsAux : Nat → Nat → List Char
  | 0, _ => []
  | _ + 1, 0 => []
  | fuel + 1, n => natDigitsAux fuel (n / 10) ++ [Char.ofNat (48 + n % 10)]

/-- Decimal rendering of a natural number. -/
def natToStr (n : Nat) : String :=
  if n = 0 then "0" else String.mk (natDigitsAux n n)

/-- The single boxed error type `Err = Box<dyn std::error::Error + Send + Sync>`
through which every fatal failure is propagated; constructors record which
collaborator produced the boxed value. -/
inductive RtError where
  | config (msg : String)
  | transport (msg : String)
  | ctxParse (msg : String)
  | deser (msg : String)
  | ser (msg : String)
  deriving Repr, DecidableEq

/-- `Config`: the environment-derived settings snapshot. -/
structure Config where
  endpoint : String
  function_name : String
  memory : Int
  version : String
  log_stream : String
  log_group : String
  deriving Repr, DecidableEq

/-- `Config::from_env`: reads the six variables, propagating the first
failure; the memory size must parse as an `i32`. -/
def Config.from_env (env : Env) : Except RtError Config := do
  let endpoint ← (env.var "AWS_LAMBDA_RUNTIME_API").mapError RtError.config
  let function_name ← (env.var "AWS_LAMBDA_FUNCTION_NAME").mapError RtError.config
  let memStr ← (env.var "AWS_LAMBDA_FUNCTION_MEMORY_SIZE").mapError RtError.config
  let memory ← (parseI32 memStr).mapError RtError.config
  let version ← (env.var "AWS_LAMBDA_FUNCTION_VERSION").mapError RtError.config
  let log_stream ← (env.var "AWS_LAMBDA_LOG_STREAM_NAME").mapError RtError.config
  let log_group ← (env.var "AWS_LAMBDA_LOG_GROUP_NAME").mapError RtError.config
  pure { endpoint, function_name, memory, version, log_stream, log_group }

/-- A minimal JSON value universe, enough for the wire envelope. -/
inductive Json where
  | str (s : String)
  | obj (fields : List (String × Json))

/-- Render a JSON string literal with escaping of the two structural
characters. -/
def Json.renderStr (s : String) : String :=
  "\"" ++ String.join (s.toList.map fun c =>
    if c = '"' then "\\\"" else if c = '\\' then "\\\\" else String.singleton c) ++ "\""

/-- Serialize a JSON value to text. -/
def Json.render : Json → String
  | .str s => Json.renderStr s
  | .obj fields => "\x7b" ++ String.intercalate ","
      (fields.attach.map fun p => Json.renderStr p.1.1 ++ ":" ++ Json.render p.1.2)
      ++ "\x7d"
decreasing_by
  have h := List.sizeOf_lt_of_mem p.2
  have h2 : sizeOf p.1.2 < sizeOf p.1 := by
    cases p.1 with
    | mk k v => simp
  simp only [Json.obj.sizeOf_spec]
  omega

/-- Modelled from the spec: `Diagnostic` (in the `types` module, absent from
the sources): the wire contract for a reported invocation failure, an
error-type tag plus a human-readable message. -/
structure Diagnostic where
  error_message : String
  error_type : String
  deriving Repr, DecidableEq

/-- Modelled from the spec: serde serialization of a `Diagnostic` with the
renamed field labels `errorMessage` / `errorType`. -/
def Diagnostic.toJson (d : Diagnostic) : Json :=
  .obj [("errorMessage", .str d.error_message), ("errorType", .str d.error_type)]

/-- Modelled from the spec: serde deserialization of a `Diagnostic`: both
renamed fields must be present as strings. -/
def Diagnostic.fromJson (j : Json) : Except String Diagnostic :=
  match j with
  | .obj fields =>
      match fields.lookup "errorMessage", fields.lookup "errorType" with
      | some (.str m), some (.str t) => .ok { error_message := m, error_type := t }
      | _, _ => .error "missing field"
  | _ => .error "invalid type: expected a map"

instance : Inhabited Config :=
  ⟨{ endpoint := "", function_name := "", memory := 0, version := "",
     log_stream := "", log_group := "" }⟩

/-- Modelled from the spec: `LambdaCtx` (in the `types` module, absent from
the sources): the invocation context extracted from the fetch-response
headers, plus the per-invocation configuration snapshot. -/
structure LambdaCtx where
  request_id : String
  deadline : String
  invoked_function_arn : String
  xray_trace_id : String
  client_context : Option String
  identity : Option String
  env_config : Config
  deriving Repr, DecidableEq

/-- Response headers as delivered by the transport. -/
abbrev Headers : Type := List (String × String)

/-- Modelled from the spec: `LambdaCtx::try_from(&HeaderMap)`: fails exactly
when the required request-id header is absent; the optional headers default
to empty or absent. -/
def LambdaCtx.try_from (headers : Headers) : Except RtError LambdaCtx :=
  match headers.lookup "lambda-runtime-aws-request-id" with
  | none => .error (.ctxParse "missing header lambda-runtime-aws-request-id")
  | some rid =>
      .ok { request_id := rid
            deadline := (headers.lookup "lambda-runtime-deadline-ms").getD ""
            invoked_function_arn :=
              (headers.lookup "lambda-runtime-invoked-function-arn").getD ""
            xray_trace_id := (headers.lookup "lambda-runtime-trace-id").getD ""
            client_context := headers.lookup "lambda-runtime-client-context"
            identity := headers.lookup "lambda-runtime-cognito-identity"
            env_config := default }

/-- HTTP method of a wire request. -/
inductive Method where
  | GET
  | POST
  deriving Repr, DecidableEq

/-- A wire request: method, path relative to the base endpoint, and body. -/
structure HttpRequest where
  method : Method
  path : String
  body : String
  deriving Repr, DecidableEq

/-- A wire response: headers plus raw body bytes. -/
structure HttpResponse where
  headers : Headers
  body : String
  deriving Repr, DecidableEq

/-- Modelled from the spec: `NextEventRequest` (in the `requests` module,
absent from the sources): the fetch-next-invocation request marker. -/
structure NextEventRequest where
  deriving Repr, DecidableEq

/-- The fetch-next-invocation wire request. -/
def nextReq : HttpRequest :=
  { method := .GET, path := "/2018-06-01/runtime/invocation/next", body := "" }

/-- Modelled from the spec: building the fetch request: GET on the fixed
relative path, no body. -/
def NextEventRequest.into_req (_ : NextEventRequest) : Except RtError HttpRequest :=
  .ok nextReq

/-- Modelled from the spec: `EventCompletionRequest` (in the `requests`
module, absent from the sources): the success report for one invocation. -/
structure EventCompletionRequest where
  request_id : String
  body : String
  deriving Repr, DecidableEq

/-- Modelled from the spec: building the success-report request: POST on the
request-id-parameterized response path, serialized output as body. -/
def EventCompletionRequest.into_req (r : EventCompletionRequest) :
    Except RtError HttpRequest :=
  .ok { method := .POST
        path := "/2018-06-01/runtime/invocation/" ++ r.request_id ++ "/response"
        body := r.body }

/-- Modelled from the spec: `EventErrorRequest` (in the `requests` module,
absent from the sources): the error report for one invocation. -/
structure EventErrorRequest where
  request_id : String
  diagnostic : Diagnostic
  deriving Repr, DecidableEq

/-- Modelled from the spec: building the error-report request: POST on the
request-id-parameterized error path, the JSON-serialized Diagnostic as
body. -/
def EventErrorRequest.into_req (r : EventErrorRequest) : Except RtError HttpRequest :=
  .ok { method := .POST
        path := "/2018-06-01/runtime/invocation/" ++ r.request_id ++ "/error"
        body := r.diagnostic.toJson.render }

/-- Is a request the fetch-next-invocation request? -/
def HttpRequest.isFetch (r : HttpRequest) : Bool :=
  r.method = .GET && r.path = "/2018-06-01/runtime/invocation/next"

/-- Is a request a report (success or error) for some invocation? -/
def HttpRequest.isReport (r : HttpRequest) : Bool :=
  r.method = .POST

/-- The serde capabilities a payload type carries: `serde_json::from_reader`
over the raw body and `serde_json::to_vec`, both fallible. -/
structure SerdeCodec (α : Type) where
  from_reader : String → Except String α
  to_vec : α → Except String String

/-- The debug-format and type-identity data carried by a handler error type
`E` (Rust derives these from `fmt::Debug` and from the type itself). -/
structure ErrorMeta (E : Type) where
  debugFmt : E → String
  type_name : String

/-- `type_name_of_val`: ignores the value and returns the type's name. -/
def type_name_of_val {E : Type} (m : ErrorMeta E) (_ : E) : String :=
  m.type_name

/-- `HandlerFn`: a handler held as a plain closure value. -/
structure HandlerFn (F : Type) where
  f : F

/-- `handler_fn`: wraps a closure into a `HandlerFn`. -/
def handler_fn {F : Type} (f : F) : HandlerFn F :=
  { f }

/-- The `Handler` impl for `HandlerFn`: `call` forwards to the wrapped
closure (the async future is collapsed to its result). -/
def HandlerFn.call {A B E : Type} (h : HandlerFn (A → Except E B)) (req : A) :
    Except E B :=
  (h.f) req

/-- The transport (`client.call`): consumes a world state and a request,
yields a response and successor state, or a transport error. -/
def Transport (σ : Type) : Type :=
  σ → HttpRequest → Except RtError (HttpResponse × σ)

/-- The report built from the handler's outcome (the `match` on
`handler.call(body).await` in the source): on success, serialize the output
and build the completion request; on failure, build the error request from
the Diagnostic derived by debug-formatting the error and taking its type
name. -/
def buildReport {B E : Type} (cdB : SerdeCodec B) (em : ErrorMeta E)
    (request_id : String) (res : Except E B) : Except RtError HttpRequest :=
  match res with
  | .ok res =>
      match cdB.to_vec res with
      | .error e => .error (.ser e)
      | .ok out => EventCompletionRequest.into_req { request_id, body := out }
  | .error err =>
      EventErrorRequest.into_req
        { request_id
          diagnostic :=
            { error_message := em.debugFmt err
              error_type := type_name_of_val em err } }

/-- Everything one loop iteration observably did: the wire requests it
issued in order, the invocation context it built (if it got that far), and
either the successor world state or the propagated fatal error. -/
structure IterTrace (σ : Type) where
  requests : List HttpRequest
  ctx? : Option LambdaCtx
  next : Except RtError σ

/-- One iteration of `Executor::run`'s loop body: build and send the fetch
request, parse the response into a context, refresh the config snapshot
from the current environment, deserialize the payload, invoke the handler,
and build and send exactly one report.  Every `?` in the source is a
propagating match here. -/
def Executor.iterate {σ A B E : Type} (T : Transport σ) (envOf : σ → Env)
    (cdA : SerdeCodec A) (cdB : SerdeCodec B) (em : ErrorMeta E)
    (handler : A → Except E B) (s : σ) : IterTrace σ :=
  match NextEventRequest.into_req {} with
  | .error e => { requests := [], ctx? := none, next := .error e }
  | .ok fetchReq =>
    match T s fetchReq with
    | .error e => { requests := [fetchReq], ctx? := none, next := .error e }
    | .ok (event, s₁) =>
      match LambdaCtx.try_from event.headers with
      | .error e => { requests := [fetchReq], ctx? := none, next := .error e }
      | .ok ctx₀ =>
        match Config.from_env (envOf s₁) with
        | .error e => { requests := [fetchReq], ctx? := none, next := .error e }
        | .ok cfg =>
          let ctx : LambdaCtx := { ctx₀ with env_config := cfg }
          match cdA.from_reader event.body with
          | .error e =>
              { requests := [fetchReq], ctx? := some ctx, next := .error (.deser e) }
          | .ok a =>
            match buildReport cdB em ctx.request_id (handler a) with
            | .error e =>
                { requests := [fetchReq], ctx? := some ctx, next := .error e }
            | .ok rep =>
              match T s₁ rep with
              | .error e =>
                  { requests := [fetchReq, rep], ctx? := some ctx, next := .error e }
              | .ok (_, s₂) =>
                  { requests := [fetchReq, rep], ctx? := some ctx, next := .ok s₂ }

/-- Sequencing one iteration's trace with the rest of the loop: an iteration
that errored ends the loop with that error; otherwise the loop goes on from
the successor state. -/
def Executor.loopStep {σ : Type} (t : IterTrace σ)
    (rest : σ → List (IterTrace σ) × Option RtError) :
    List (IterTrace σ) × Option RtError :=
  match t.next with
  | .error e => ([t], some e)
  | .ok s' => (t :: (rest s').1, (rest s').2)

/-- `Executor::run`: the unbounded loop, run on fuel.  Returns the trace of
the iterations performed and `some e` when the loop exited with the fatal
error `e`; `none` means the fuel ran out with the loop still going (the
source loop has no other way to stop). -/
def Executor.run {σ A B E : Type} (T : Transport σ) (envOf : σ → Env)
    (cdA : SerdeCodec A) (cdB : SerdeCodec B) (em : ErrorMeta E)
    (handler : A → Except E B) : Nat → σ → List (IterTrace σ) × Option RtError
  | 0, _ => ([], none)
  | n + 1, s =>
    Executor.loopStep (Executor.iterate T envOf cdA cdB em handler s)
      (Executor.run T envOf cdA cdB em handler n)

/-- How the public `run` entry point ends: a panic from an `expect`, a
returned `Err`, or still running when the fuel ran out. -/
inductive RunExit where
  | panicked (msg : String)
  | returnedErr (e : RtError)
  | running
  deriving Repr, DecidableEq

/-- The public `run` function: loads the config (panicking via `expect` on
failure), builds the client, and drives the executor loop; a loop error is
returned as the single boxed error type. -/
def run {σ A B E : Type} (T : Transport σ) (envOf : σ → Env)
    (cdA : SerdeCodec A) (cdB : SerdeCodec B) (em : ErrorMeta E)
    (handler : A → Except E B) (fuel : Nat) (s : σ) : RunExit :=
  match Config.from_env (envOf s) with
  | .error _ => .panicked "Could not load config"
  | .ok _config =>
      match (Executor.run T envOf cdA cdB em handler fuel s).2 with
      | some e => .returnedErr e
      | none => .running

/-- The invocation context read off a fetch-response's headers, with the
given configuration snapshot. -/
def ctxFor (rid : String) (headers : Headers) (cfg : Config) : LambdaCtx :=
  { request_id := rid
    deadline := (headers.lookup "lambda-runtime-deadline-ms").getD ""
    invoked_function_arn :=
      (headers.lookup "lambda-runtime-invoked-function-arn").getD ""
    xray_trace_id := (headers.lookup "lambda-runtime-trace-id").getD ""
    client_context := headers.lookup "lambda-runtime-client-context"
    identity := headers.lookup "lambda-runtime-cognito-identity"
    env_config := cfg }

/-- The error-report wire request for a given request id and diagnostic
(the value `EventErrorRequest::into_req` builds). -/
def errorReportFor (request_id : String) (d : Diagnostic) : HttpRequest :=
  { method := .POST
    path := "/2018-06-01/runtime/invocation/" ++ request_id ++ "/error"
    body := d.toJson.render }

/-- The strict fetch/report alternation demanded of the wire-request
sequence: fetch, then one report, repeated, possibly ending in a bare
fetch. -/
def reqSeqOk : List HttpRequest → Bool
  | [] => true
  | [r] => r.isFetch
  | r :: p :: rest => r.isFetch && p.isReport && reqSeqOk rest

/-- Did the public entry point return an `Err` value? -/
def RunExit.isReturnedErr : RunExit → Bool
  | .returnedErr _ => true
  | _ => false

/-- Is an `Except` value a success? -/
def exceptIsOk {ε α : Type} : Except ε α → Bool
  | .ok _ => true
  | .error _ => false

/-! ### Concrete instantiations used to exercise the theorems -/

/-- A fully populated process environment. -/
def demoEnv : Env :=
  [("AWS_LAMBDA_RUNTIME_API", "127.0.0.1:9001"),
   ("AWS_LAMBDA_FUNCTION_NAME", "test_fn"),
   ("AWS_LAMBDA_FUNCTION_MEMORY_SIZE", "128"),
   ("AWS_LAMBDA_FUNCTION_VERSION", "$LATEST"),
   ("AWS_LAMBDA_LOG_STREAM_NAME", "stream"),
   ("AWS_LAMBDA_LOG_GROUP_NAME", "group")]

/-- An environment whose function-version variable tracks the world state,
so successive invocations observe different configuration snapshots. -/
def verEnv (n : Nat) : Env :=
  [("AWS_LAMBDA_RUNTIME_API", "127.0.0.1:9001"),
   ("AWS_LAMBDA_FUNCTION_NAME", "test_fn"),
   ("AWS_LAMBDA_FUNCTION_MEMORY_SIZE", "128"),
   ("AWS_LAMBDA_FUNCTION_VERSION", natToStr n),
   ("AWS_LAMBDA_LOG_STREAM_NAME", "stream"),
   ("AWS_LAMBDA_LOG_GROUP_NAME", "group")]

/-- A wire codec for `Nat` payloads. -/
def natCodec : SerdeCodec Nat :=
  { from_reader := fun s =>
      match parseDigits s.data with
      | some n => .ok n
      | none => .error "invalid number"
    to_vec := fun n => .ok (natToStr n) }

/-- Debug-format and type-identity data for `String`-valued handler
errors. -/
def strMeta : ErrorMeta String :=
  { debugFmt := fun e => Json.renderStr e
    type_name := "alloc::string::String" }

/-- A fetch response carrying request id `abc-123` and payload `5`. -/
def demoEvent : HttpResponse :=
  { headers := [("lambda-runtime-aws-request-id", "abc-123")], body := "5" }

/-- A transport that always answers with `demoEvent` and counts requests in
its state. -/
def demoT : Transport Nat :=
  fun s _ => .ok (demoEvent, s + 1)

/-- A transport that always fails at the connection level. -/
def failT : Transport Nat :=
  fun _ _ => .error (.transport "connection refused")

/-- A fetch response with no headers at all. -/
def noHeaderEvent : HttpResponse :=
  { headers := [], body := "5" }

/-- A transport answering with a response that lacks the request-id
header. -/
def noHeaderT : Transport Nat :=
  fun s _ => .ok (noHeaderEvent, s + 1)

/-- A fetch response whose payload is not a number. -/
def badPayloadEvent : HttpResponse :=
  { headers := [("lambda-runtime-aws-request-id", "abc-123")], body := "not json" }

/-- A transport answering with an undeserializable payload. -/
def badPayloadT : Transport Nat :=
  fun s _ => .ok (badPayloadEvent, s + 1)

/-! ### Helper lemmas -/

/-- Context parsing succeeds exactly on the presence of the request-id
header; the remaining fields are read off the optional headers. -/
lemma try_from_of_lookup {headers : Headers} {rid : String}
    (h : headers.lookup "lambda-runtime-aws-request-id" = some rid) :
    LambdaCtx.try_from headers = .ok (ctxFor rid headers default) := by
  unfold LambdaCtx.try_from ctxFor
  rw [h]

/-- Updating the configuration snapshot of a read-off context. -/
lemma ctxFor_update (rid : String) (headers : Headers) (cfg cfg' : Config) :
    ({ ctxFor rid headers cfg with env_config := cfg' }) = ctxFor rid headers cfg' := rfl

/-- The request id of a read-off context. -/
lemma ctxFor_request_id (rid : String) (headers : Headers) (cfg : Config) :
    (ctxFor rid headers cfg).request_id = rid := rfl

/-- Every iteration's first wire request is the fetch request. -/
lemma iterate_requests_head {σ A B E : Type} (T : Transport σ) (envOf : σ → Env)
    (cdA : SerdeCodec A) (cdB : SerdeCodec B) (em : ErrorMeta E)
    (handler : A → Except E B) (s : σ) :
    (Executor.iterate T envOf cdA cdB em handler s).requests.head? = some nextReq := by
  unfold Executor.iterate
  simp only [NextEventRequest.into_req]
  repeat' split
  all_goals rfl

/-- A successfully built report request is a report (a POST). -/
lemma buildReport_isReport {B E : Type} {cdB : SerdeCodec B} {em : ErrorMeta E}
    {rid : String} {res : Except E B} {rep : HttpRequest}
    (h : buildReport cdB em rid res = .ok rep) : rep.isReport = true := by
  unfold buildReport at h
  split at h
  · split at h
    · cases h
    · cases h; rfl
  · cases h; rfl

/-- An iteration issues either the bare fetch request, or the fetch request
followed by exactly one report. -/
lemma iterate_requests_shape {σ A B E : Type} (T : Transport σ) (envOf : σ → Env)
    (cdA : SerdeCodec A) (cdB : SerdeCodec B) (em : ErrorMeta E)
    (handler : A → Except E B) (s : σ) :
    (Executor.iterate T envOf cdA cdB em handler s).requests = [nextReq] ∨
    ∃ rep, rep.isReport = true ∧
      (Executor.iterate T envOf cdA cdB em handler s).requests = [nextReq, rep] := by
  unfold Executor.iterate
  simp only [NextEventRequest.into_req]
  repeat' split
  all_goals first
    | exact Or.inl rfl
    | exact Or.inr ⟨_, buildReport_isReport (by assumption), rfl⟩

/-- An iteration that hands an updated state to the loop has issued the
fetch request and then exactly one report. -/
lemma iterate_ok_shape {σ A B E : Type} {T : Transport σ} {envOf : σ → Env}
    {cdA : SerdeCodec A} {cdB : SerdeCodec B} {em : ErrorMeta E}
    {handler : A → Except E B} {s s' : σ}
    (h : (Executor.iterate T envOf cdA cdB em handler s).next = .ok s') :
    ∃ rep, rep.isReport = true ∧
      (Executor.iterate T envOf cdA cdB em handler s).requests = [nextReq, rep] := by
  revert h
  unfold Executor.iterate
  simp only [NextEventRequest.into_req]
  repeat' split
  all_goals intro h
  all_goals first
    | exact ⟨_, buildReport_isReport (by assumption), rfl⟩
    | cases h

/-- Unfolding the loop by one iteration. -/
lemma run_succ {σ A B E : Type} (T : Transport σ) (envOf : σ → Env)
    (cdA : SerdeCodec A) (cdB : SerdeCodec B) (em : ErrorMeta E)
    (handler : A → Except E B) (n : Nat) (s : σ) :
    Executor.run T envOf cdA cdB em handler (n + 1) s =
      Executor.loopStep (Executor.iterate T envOf cdA cdB em handler s)
        (Executor.run T envOf cdA cdB em handler n) := rfl

/-- With one unit of fuel the loop performs exactly one iteration. -/
lemma run_one {σ A B E : Type} (T : Transport σ) (envOf : σ → Env)
    (cdA : SerdeCodec A) (cdB : SerdeCodec B) (em : ErrorMeta E)
    (handler : A → Except E B) (s : σ) :
    (Executor.run T envOf cdA cdB em handler 1 s).1 =
      [Executor.iterate T envOf cdA cdB em handler s] := by
  rw [run_succ]
  unfold Executor.loopStep
  cases h : (Executor.iterate T envOf cdA cdB em handler s).next with
  | error e => rfl
  | ok s' => rfl

/-! ### Claim theorems -/

/-- Claim C9: the closure-based handler variant adds no behavior: calling
`HandlerFn` built from `f` on any event `a` is exactly `f a`. -/
theorem handler_fn_call_forwards {A B E : Type} (f : A → Except E B) (a : A) :
    (handler_fn f).call a = f a := rfl

/-- Claim C8: encoding any Diagnostic to JSON and decoding the result back
yields a Diagnostic with the same errorMessage/errorType pair. -/
theorem diagnostic_json_round_trip (d : Diagnostic) :
    Diagnostic.fromJson (Diagnostic.toJson d) = .ok d := by
  cases d
  rfl

/-- Claim C1: for an echoing handler, one iteration of the executor loop on
a payload that is the JSON encoding of `v` issues a success-report request
whose body is the JSON encoding of `v`. -/
theorem echo_iteration_reports_input_json {σ A E : Type}
    (T : Transport σ) (envOf : σ → Env) (cd : SerdeCodec A) (em : ErrorMeta E)
    {s s₁ : σ} {event : HttpResponse} {rid : String} {v : A} {pv : String}
    {cfg : Config}
    (henc : cd.to_vec v = .ok pv)
    (hdec : cd.from_reader pv = .ok v)
    (hT : T s nextReq = .ok (event, s₁))
    (hbody : event.body = pv)
    (hhdr : event.headers.lookup "lambda-runtime-aws-request-id" = some rid)
    (hcfg : Config.from_env (envOf s₁) = .ok cfg) :
    (Executor.iterate T envOf cd cd em (fun a => .ok a) s).requests =
      [nextReq,
       { method := .POST
         path := "/2018-06-01/runtime/invocation/" ++ rid ++ "/response"
         body := pv }] := by
  have hc := try_from_of_lookup hhdr
  unfold Executor.iterate
  simp only [NextEventRequest.into_req, hT, hc, hcfg, hbody, hdec, buildReport, henc,
    EventCompletionRequest.into_req, ctxFor_update, ctxFor_request_id]
  split <;> rfl

/-- The echo theorem exercised at request id `abc-123`, payload `5`. -/
theorem echo_iteration_reports_input_json_witness :
    (Executor.iterate demoT (fun _ => demoEnv) natCodec natCodec strMeta
        (fun a => .ok a) 0).requests =
      [nextReq,
       { method := .POST
         path := "/2018-06-01/runtime/invocation/abc-123/response"
         body := "5" }] :=
  @echo_iteration_reports_input_json Nat Nat String demoT (fun _ => demoEnv)
    natCodec strMeta 0 1 demoEvent "abc-123" 5 "5"
    ⟨"127.0.0.1:9001", "test_fn", 128, "$LATEST", "stream", "group"⟩
    (by decide) (by decide) (by decide) (by decide) (by decide) (by decide)

/-- Claim C2: a handler that fails with `e` makes the iteration issue
exactly one error report, whose Diagnostic carries the debug rendering of
`e` as message and the type identity of `e` as type tag; the loop then goes
on to fetch the next invocation instead of terminating. -/
theorem failing_handler_reports_diagnostic_and_continues {σ A B E : Type}
    (T : Transport σ) (envOf : σ → Env) (cdA : SerdeCodec A) (cdB : SerdeCodec B)
    (em : ErrorMeta E) (e : E)
    {s s₁ s₂ : σ} {event resp₂ : HttpResponse} {rid : String} {a : A} {cfg : Config}
    (hT : T s nextReq = .ok (event, s₁))
    (hhdr : event.headers.lookup "lambda-runtime-aws-request-id" = some rid)
    (hcfg : Config.from_env (envOf s₁) = .ok cfg)
    (hdec : cdA.from_reader event.body = .ok a)
    (hT2 : T s₁ (errorReportFor rid
        { error_message := em.debugFmt e, error_type := type_name_of_val em e }) =
        .ok (resp₂, s₂)) :
    (Executor.iterate T envOf cdA cdB em (fun _ => .error e) s).requests =
      [nextReq, errorReportFor rid
        { error_message := em.debugFmt e, error_type := type_name_of_val em e }] ∧
    (Executor.iterate T envOf cdA cdB em (fun _ => .error e) s).next = .ok s₂ ∧
    ((Executor.run T envOf cdA cdB em (fun _ => .error e) 2 s).1.map
        fun t => t.requests.head?) = [some nextReq, some nextReq] := by
  have hc := try_from_of_lookup hhdr
  have hT2' : T s₁
      { method := .POST
        path := "/2018-06-01/runtime/invocation/" ++ rid ++ "/error"
        body := (Diagnostic.toJson
          { error_message := em.debugFmt e,
            error_type := type_name_of_val em e }).render } = .ok (resp₂, s₂) := by
    simpa [errorReportFor] using hT2
  have hiter : Executor.iterate T envOf cdA cdB em (fun _ => .error e) s =
      { requests :=
          [nextReq, errorReportFor rid
            { error_message := em.debugFmt e, error_type := type_name_of_val em e }]
        ctx? := some (ctxFor rid event.headers cfg)
        next := .ok s₂ } := by
    unfold Executor.iterate
    simp only [NextEventRequest.into_req, hT, hc, hcfg, hdec, buildReport,
      EventErrorRequest.into_req, ctxFor_update, ctxFor_request_id, hT2',
      errorReportFor]
    rfl
  refine ⟨by rw [hiter], by rw [hiter], ?_⟩
  have h2 : Executor.run T envOf cdA cdB em (fun _ => .error e) 2 s =
      Executor.loopStep (Executor.iterate T envOf cdA cdB em (fun _ => .error e) s)
        (Executor.run T envOf cdA cdB em (fun _ => .error e) 1) := rfl
  rw [h2, hiter]
  simp only [Executor.loopStep, List.map_cons, run_one, List.map_nil,
    List.head?_cons, iterate_requests_head]

/-- The failing-handler theorem exercised at request id `abc-123` with the
string error `boom`. -/
theorem failing_handler_reports_diagnostic_and_continues_witness :
    (Executor.iterate demoT (fun _ => demoEnv) natCodec natCodec strMeta
        (fun _ => .error "boom") 0).requests =
      [nextReq, errorReportFor "abc-123"
        { error_message := strMeta.debugFmt "boom"
          error_type := type_name_of_val strMeta "boom" }] ∧
    (Executor.iterate demoT (fun _ => demoEnv) natCodec natCodec strMeta
        (fun _ => .error "boom") 0).next = .ok 2 ∧
    ((Executor.run demoT (fun _ => demoEnv) natCodec natCodec strMeta
        (fun _ => .error "boom") 2 0).1.map
      fun t => t.requests.head?) = [some nextReq, some nextReq] :=
  @failing_handler_reports_diagnostic_and_continues Nat Nat Nat String demoT
    (fun _ => demoEnv) natCodec natCodec strMeta "boom"
    0 1 2 demoEvent demoEvent "abc-123" 5
    ⟨"127.0.0.1:9001", "test_fn", 128, "$LATEST", "stream", "group"⟩
    (by decide) (by decide) (by decide) (by decide) (by decide)

/-- Claim C3: a payload that fails to deserialize makes the loop return the
deserialization error to its caller; no report request is issued for it,
and the iteration's outcome does not depend on the handler, which is
therefore never invoked. -/
theorem deser_failure_is_fatal_and_unreported {σ A B E : Type}
    (T : Transport σ) (envOf : σ → Env) (cdA : SerdeCodec A) (cdB : SerdeCodec B)
    (em : ErrorMeta E)
    {s s₁ : σ} {event : HttpResponse} {rid : String} {cfg : Config} {msg : String}
    (hT : T s nextReq = .ok (event, s₁))
    (hhdr : event.headers.lookup "lambda-runtime-aws-request-id" = some rid)
    (hcfg : Config.from_env (envOf s₁) = .ok cfg)
    (hdec : cdA.from_reader event.body = .error msg) :
    ∀ h₁ h₂ : A → Except E B,
      Executor.iterate T envOf cdA cdB em h₁ s = Executor.iterate T envOf cdA cdB em h₂ s ∧
      (Executor.iterate T envOf cdA cdB em h₁ s).requests = [nextReq] ∧
      (Executor.iterate T envOf cdA cdB em h₁ s).next = .error (.deser msg) ∧
      ∀ n, (Executor.run T envOf cdA cdB em h₁ (n + 1) s).2 = some (.deser msg) := by
  have hc := try_from_of_lookup hhdr
  have hiter : ∀ h : A → Except E B,
      Executor.iterate T envOf cdA cdB em h s =
        { requests := [nextReq]
          ctx? := some (ctxFor rid event.headers cfg)
          next := .error (.deser msg) } := by
    intro h
    unfold Executor.iterate
    simp only [NextEventRequest.into_req, hT, hc, hcfg, hdec]
    rfl
  intro h₁ h₂
  refine ⟨by rw [hiter h₁, hiter h₂], by rw [hiter h₁], by rw [hiter h₁], ?_⟩
  intro n
  rw [run_succ, hiter h₁]
  rfl

/-- The deserialization-failure theorem exercised on the payload
`not json`: two different handlers yield the same iteration, and the loop
returns the error. -/
theorem deser_failure_is_fatal_and_unreported_witness :
    (Executor.iterate badPayloadT (fun _ => demoEnv) natCodec natCodec strMeta
        (fun a => .ok a) 0 =
      Executor.iterate badPayloadT (fun _ => demoEnv) natCodec natCodec strMeta
        (fun _ => .error "boom") 0) ∧
    (Executor.iterate badPayloadT (fun _ => demoEnv) natCodec natCodec strMeta
        (fun a => .ok a) 0).requests = [nextReq] ∧
    (Executor.iterate badPayloadT (fun _ => demoEnv) natCodec natCodec strMeta
        (fun a => .ok a) 0).next = .error (.deser "invalid number") ∧
    (Executor.run badPayloadT (fun _ => demoEnv) natCodec natCodec strMeta
        (fun a => .ok a) 1 0).2 = some (.deser "invalid number") := by
  have w := @deser_failure_is_fatal_and_unreported Nat Nat Nat String badPayloadT
    (fun _ => demoEnv) natCodec natCodec strMeta
    0 1 badPayloadEvent "abc-123"
    ⟨"127.0.0.1:9001", "test_fn", 128, "$LATEST", "stream", "group"⟩
    "invalid number"
    (by decide) (by decide) (by decide) (by decide)
    (fun a => .ok a) (fun _ => .error "boom")
  exact ⟨w.1, w.2.1, w.2.2.1, w.2.2.2 0⟩

/-- Claim C4: a fetch-response lacking the request-id header makes context
parsing fail with a protocol parse error; the loop returns that error, no
report is issued, and the iteration's outcome does not depend on the
handler, which is therefore never invoked. -/
theorem missing_request_id_is_parse_error {σ A B E : Type}
    (T : Transport σ) (envOf : σ → Env) (cdA : SerdeCodec A) (cdB : SerdeCodec B)
    (em : ErrorMeta E)
    {s s₁ : σ} {event : HttpResponse}
    (hT : T s nextReq = .ok (event, s₁))
    (hhdr : event.headers.lookup "lambda-runtime-aws-request-id" = none) :
    LambdaCtx.try_from event.headers =
      .error (.ctxParse "missing header lambda-runtime-aws-request-id") ∧
    ∀ h₁ h₂ : A → Except E B,
      Executor.iterate T envOf cdA cdB em h₁ s = Executor.iterate T envOf cdA cdB em h₂ s ∧
      (Executor.iterate T envOf cdA cdB em h₁ s).requests = [nextReq] ∧
      (Executor.iterate T envOf cdA cdB em h₁ s).ctx? = none ∧
      (Executor.iterate T envOf cdA cdB em h₁ s).next =
        .error (.ctxParse "missing header lambda-runtime-aws-request-id") ∧
      ∀ n, (Executor.run T envOf cdA cdB em h₁ (n + 1) s).2 =
        some (.ctxParse "missing header lambda-runtime-aws-request-id") := by
  have hc : LambdaCtx.try_from event.headers =
      .error (.ctxParse "missing header lambda-runtime-aws-request-id") := by
    unfold LambdaCtx.try_from
    rw [hhdr]
  have hiter : ∀ h : A → Except E B,
      Executor.iterate T envOf cdA cdB em h s =
        { requests := [nextReq]
          ctx? := none
          next := .error (.ctxParse "missing header lambda-runtime-aws-request-id") } := by
    intro h
    unfold Executor.iterate
    simp only [NextEventRequest.into_req, hT, hc]
  refine ⟨hc, ?_⟩
  intro h₁ h₂
  refine ⟨by rw [hiter h₁, hiter h₂], by rw [hiter h₁], by rw [hiter h₁],
    by rw [hiter h₁], ?_⟩
  intro n
  rw [run_succ, hiter h₁]
  rfl

/-- The missing-header theorem exercised on a response with no headers. -/
theorem missing_request_id_is_parse_error_witness :
    LambdaCtx.try_from noHeaderEvent.headers =
      .error (.ctxParse "missing header lambda-runtime-aws-request-id") ∧
    (Executor.iterate noHeaderT (fun _ => demoEnv) natCodec natCodec strMeta
        (fun a => .ok a) 0 =
      Executor.iterate noHeaderT (fun _ => demoEnv) natCodec natCodec strMeta
        (fun _ => .error "boom") 0) ∧
    (Executor.iterate noHeaderT (fun _ => demoEnv) natCodec natCodec strMeta
        (fun a => .ok a) 0).requests = [nextReq] ∧
    (Executor.iterate noHeaderT (fun _ => demoEnv) natCodec natCodec strMeta
        (fun a => .ok a) 0).ctx? = none ∧
    (Executor.iterate noHeaderT (fun _ => demoEnv) natCodec natCodec strMeta
        (fun a => .ok a) 0).next =
      .error (.ctxParse "missing header lambda-runtime-aws-request-id") ∧
    (Executor.run noHeaderT (fun _ => demoEnv) natCodec natCodec strMeta
        (fun a => .ok a) 1 0).2 =
      some (.ctxParse "missing header lambda-runtime-aws-request-id") := by
  have w := @missing_request_id_is_parse_error Nat Nat Nat String noHeaderT
    (fun _ => demoEnv) natCodec natCodec strMeta
    0 1 noHeaderEvent
    (by decide) (by decide)
  have w2 := w.2 (fun a => .ok a) (fun _ => .error "boom")
  exact ⟨w.1, w2.1, w2.2.1, w2.2.2.1, w2.2.2.2.1, w2.2.2.2.2 0⟩

/-- The fetch request is a fetch. -/
lemma nextReq_isFetch : nextReq.isFetch = true := rfl

/-- A loop exit value is always the error of some iteration. -/
lemma run_exit_is_iterate_error {σ A B E : Type} {T : Transport σ} {envOf : σ → Env}
    {cdA : SerdeCodec A} {cdB : SerdeCodec B} {em : ErrorMeta E}
    {handler : A → Except E B} :
    ∀ (fuel : Nat) (s : σ) (e : RtError),
      (Executor.run T envOf cdA cdB em handler fuel s).2 = some e →
      ∃ s', (Executor.iterate T envOf cdA cdB em handler s').next = .error e := by
  intro fuel
  induction fuel with
  | zero =>
      intro s e h
      simp [Executor.run] at h
  | succ n ih =>
      intro s e h
      rw [run_succ] at h
      unfold Executor.loopStep at h
      cases hnext : (Executor.iterate T envOf cdA cdB em handler s).next with
      | error e' =>
          rw [hnext] at h
          simp at h
          exact ⟨s, by rw [hnext, h]⟩
      | ok s' =>
          rw [hnext] at h
          simp at h
          exact ih s' e h
/-- If every iteration succeeds, the loop never exits. -/
lemma run_none_of_iterate_ok {σ A B E : Type} {T : Transport σ} {envOf : σ → Env}
    {cdA : SerdeCodec A} {cdB : SerdeCodec B} {em : ErrorMeta E}
    {handler : A → Except E B}
    (hok : ∀ s : σ, exceptIsOk (Executor.iterate T envOf cdA cdB em handler s).next = true) :
    ∀ (fuel : Nat) (s : σ),
      (Executor.run T envOf cdA cdB em handler fuel s).2 = none := by
  intro fuel
  induction fuel with
  | zero => intro s; rfl
  | succ n ih =>
      intro s
      rw [run_succ]
      unfold Executor.loopStep
      cases hnext : (Executor.iterate T envOf cdA cdB em handler s).next with
      | error e =>
          have h := hok s
          rw [hnext] at h
          simp [exceptIsOk] at h
      | ok s' =>
          simpa using ih s'

/-- Claim C5: in every execution of the loop, the wire requests are strictly
ordered as fetch, then exactly one report, repeated (with at most a trailing
bare fetch when the loop dies mid-iteration); a second fetch is never issued
before the previous report. -/
theorem run_requests_strictly_alternate {σ A B E : Type} (T : Transport σ)
    (envOf : σ → Env) (cdA : SerdeCodec A) (cdB : SerdeCodec B) (em : ErrorMeta E)
    (handler : A → Except E B) :
    ∀ (fuel : Nat) (s : σ),
      reqSeqOk (((Executor.run T envOf cdA cdB em handler fuel s).1.map
        IterTrace.requests).flatten) = true := by
  intro fuel
  induction fuel with
  | zero => intro s; rfl
  | succ n ih =>
      intro s
      rw [run_succ]
      unfold Executor.loopStep
      cases hnext : (Executor.iterate T envOf cdA cdB em handler s).next with
      | error e =>
          rcases iterate_requests_shape T envOf cdA cdB em handler s with h | ⟨rep, hrep, h⟩
          · simp [h, reqSeqOk, nextReq_isFetch]
          · simp [h, reqSeqOk, nextReq_isFetch, hrep]
      | ok s' =>
          obtain ⟨rep, hrep, h⟩ := iterate_ok_shape hnext
          simp [h, reqSeqOk, nextReq_isFetch, hrep, ih s']

/-- Claim C6: the loop has no normal termination: whenever it stops within
its fuel it hands back the error of the iteration that failed, and when no
iteration fails it is still running after any amount of fuel. -/
theorem run_exits_only_by_error {σ A B E : Type} (T : Transport σ)
    (envOf : σ → Env) (cdA : SerdeCodec A) (cdB : SerdeCodec B) (em : ErrorMeta E)
    (handler : A → Except E B) :
    (∀ (fuel : Nat) (s : σ) (e : RtError),
        (Executor.run T envOf cdA cdB em handler fuel s).2 = some e →
        ∃ s', (Executor.iterate T envOf cdA cdB em handler s').next = .error e) ∧
    ((∀ s : σ, exceptIsOk (Executor.iterate T envOf cdA cdB em handler s).next = true) →
      ∀ (fuel : Nat) (s : σ),
        (Executor.run T envOf cdA cdB em handler fuel s).2 = none) :=
  ⟨run_exit_is_iterate_error, run_none_of_iterate_ok⟩

/-- The no-termination theorem exercised on a transport that always
delivers invocations and reports without failure. -/
theorem run_exits_only_by_error_witness :
    (Executor.run demoT (fun _ => demoEnv) natCodec natCodec strMeta
      (fun a => .ok a) 5 0).2 = none :=
  (run_exits_only_by_error demoT (fun _ => demoEnv) natCodec natCodec strMeta
    (fun a => .ok a)).2 (fun s => rfl) 5 0

/-- Claim C7: the configuration snapshot in the InvocationContext is re-read
from the current environment after parsing each fetch response rather than
cached; a failed re-read propagates out of the loop. -/
theorem config_snapshot_refreshed_per_iteration {σ A B E : Type} (T : Transport σ)
    (envOf : σ → Env) (cdA : SerdeCodec A) (cdB : SerdeCodec B) (em : ErrorMeta E)
    (handler : A → Except E B)
    {s s₁ : σ} {event : HttpResponse} {ctx₀ : LambdaCtx}
    (hT : T s nextReq = .ok (event, s₁))
    (hc : LambdaCtx.try_from event.headers = .ok ctx₀) :
    (∀ cfg, Config.from_env (envOf s₁) = .ok cfg →
      (Executor.iterate T envOf cdA cdB em handler s).ctx? =
        some { ctx₀ with env_config := cfg }) ∧
    (∀ e, Config.from_env (envOf s₁) = .error e →
      (Executor.iterate T envOf cdA cdB em handler s).next = .error e ∧
      ∀ n, (Executor.run T envOf cdA cdB em handler (n + 1) s).2 = some e) := by
  constructor
  · intro cfg hcfg
    unfold Executor.iterate
    simp only [NextEventRequest.into_req, hT, hc, hcfg]
    repeat' split
    all_goals rfl
  · intro e hcfg
    have hiter : Executor.iterate T envOf cdA cdB em handler s =
        { requests := [nextReq], ctx? := none, next := .error e } := by
      unfold Executor.iterate
      simp only [NextEventRequest.into_req, hT, hc, hcfg]
    exact ⟨by rw [hiter], fun n => by rw [run_succ, hiter]; rfl⟩

/-- The fresh-snapshot theorem exercised against an environment whose
function-version variable tracks the world state: the iteration started at
state 0 observes version `1` (the post-fetch state), not a startup value. -/
theorem config_snapshot_refreshed_per_iteration_witness :
    (Executor.iterate demoT verEnv natCodec natCodec strMeta
        (fun a => .ok a) 0).ctx? =
      some (ctxFor "abc-123" demoEvent.headers
        { endpoint := "127.0.0.1:9001", function_name := "test_fn", memory := 128,
          version := "1", log_stream := "stream", log_group := "group" }) :=
  (@config_snapshot_refreshed_per_iteration Nat Nat Nat String demoT verEnv
    natCodec natCodec strMeta (fun a => .ok a) 0 1 demoEvent
    (ctxFor "abc-123" demoEvent.headers default)
    (by decide) (by decide)).1
    { endpoint := "127.0.0.1:9001", function_name := "test_fn", memory := 128,
      version := "1", log_stream := "stream", log_group := "group" }
    (by decide)

/-- Claim C10 counterexample: with an empty environment, a configuration
error at startup makes the public `run` panic through `expect` instead of
returning an `Err` value. -/
theorem startup_config_error_panics_counterexample :
    run demoT (fun _ => ([] : Env)) natCodec natCodec strMeta
      (fun a => .ok a) 1 0 = .panicked "Could not load config" ∧
    (run demoT (fun _ => ([] : Env)) natCodec natCodec strMeta
      (fun a => .ok a) 1 0).isReturnedErr = false := by
  exact ⟨rfl, rfl⟩

/-- Claim C10 (amended): loop-fatal errors (transport, protocol parse,
envelope serde, in-loop config) are returned from the public `run` as the
single boxed error type; a configuration error at startup instead aborts by
panicking; and when no iteration fails — in particular when only the
handler fails — the loop never returns at all. -/
theorem run_error_propagation_amended {σ A B E : Type} (T : Transport σ)
    (envOf : σ → Env) (cdA : SerdeCodec A) (cdB : SerdeCodec B) (em : ErrorMeta E)
    (handler : A → Except E B) :
    (∀ (fuel : Nat) (s : σ), exceptIsOk (Config.from_env (envOf s)) = false →
        run T envOf cdA cdB em handler fuel s = .panicked "Could not load config") ∧
    (∀ (fuel : Nat) (s : σ) (cfg : Config) (e : RtError),
        Config.from_env (envOf s) = .ok cfg →
        (Executor.run T envOf cdA cdB em handler fuel s).2 = some e →
        run T envOf cdA cdB em handler fuel s = .returnedErr e) ∧
    (∀ (fuel : Nat) (s : σ) (cfg : Config),
        Config.from_env (envOf s) = .ok cfg →
        (∀ s' : σ, exceptIsOk (Executor.iterate T envOf cdA cdB em handler s').next = true) →
        run T envOf cdA cdB em handler fuel s = .running) := by
  refine ⟨?_, ?_, ?_⟩
  · intro fuel s h
    unfold run
    cases hc : Config.from_env (envOf s) with
    | error e => rfl
    | ok cfg => rw [hc] at h; simp [exceptIsOk] at h
  · intro fuel s cfg e hc h2
    unfold run
    simp only [hc, h2]
  · intro fuel s cfg hc hok
    unfold run
    simp only [hc, run_none_of_iterate_ok hok fuel s]

/-- The propagation theorem exercised three ways: a transport failure is
returned as an `Err`, a permanently failing handler leaves the loop
running, and a missing environment panics at startup. -/
theorem run_error_propagation_amended_witness :
    run failT (fun _ => demoEnv) natCodec natCodec strMeta
      (fun a : Nat => .ok a) 1 0 = .returnedErr (.transport "connection refused") ∧
    run demoT (fun _ => demoEnv) natCodec natCodec strMeta
      (fun _ : Nat => (.error "boom" : Except String Nat)) 3 0 = .running ∧
    run demoT (fun _ => ([] : Env)) natCodec natCodec strMeta
      (fun a : Nat => .ok a) 1 0 = .panicked "Could not load config" := by
  refine ⟨?_, ?_, ?_⟩
  · exact (run_error_propagation_amended failT (fun _ => demoEnv) natCodec natCodec
      strMeta (fun a : Nat => .ok a)).2.1 1 0
      { endpoint := "127.0.0.1:9001", function_name := "test_fn", memory := 128,
        version := "$LATEST", log_stream := "stream", log_group := "group" }
      (.transport "connection refused") (by decide) (by decide)
  · exact (run_error_propagation_amended demoT (fun _ => demoEnv) natCodec natCodec
      strMeta (fun _ : Nat => (.error "boom" : Except String Nat))).2.2 3 0
      { endpoint := "127.0.0.1:9001", function_name := "test_fn", memory := 128,
        version := "$LATEST", log_stream := "stream", log_group := "group" }
      (by decide) (fun s' => rfl)
  · exact (run_error_propagation_amended demoT (fun _ => ([] : Env)) natCodec natCodec
      strMeta (fun a : Nat => .ok a)).1 1 0 (by decide)

end Lambda
